import Mathlib

/-!
Shallow embedding of the hostel management backend
(`backend/hostel/models.py`, `backend/hostel/views.py`,
`backend/accounts/models.py`, `backend/accounts/permissions.py`).

Conventions of the embedding:
* calendar dates are ordinal day numbers (`Nat`); "today" is threaded as an
  explicit parameter wherever the source reads `timezone.now().date()` or
  `date.today()`;
* fixed-point currency amounts (`DecimalField`) are `Int` (value in the
  smallest currency unit);
* the persistent store is a record of lists, one per table; primary keys are
  `Nat` ids and foreign keys are stored ids;
* an HTTP handler that may reject returns the (possibly updated) store
  together with an `Option` error, `none` meaning success.
-/

namespace Hostel

/-- accounts/models.py — `User.ROLE_CHOICES`. -/
inductive Role
  | admin
  | warden
  | student
deriving DecidableEq, Repr

/-- accounts/models.py — `User`, restricted to the fields the access-control
and scoping logic reads (`role`); `is_authenticated` models the
framework-provided flag checked by the permission classes. -/
structure User where
  id : Nat
  role : Role
  is_authenticated : Bool
deriving DecidableEq, Repr

/-- accounts/models.py — `User.is_admin`. -/
def User.is_admin (u : User) : Bool := u.role == Role.admin

/-- accounts/models.py — `User.is_warden`. -/
def User.is_warden (u : User) : Bool := u.role == Role.warden

/-- accounts/models.py — `User.is_student`. -/
def User.is_student (u : User) : Bool := u.role == Role.student

/-- hostel/models.py — `Room.ROOM_TYPE_CHOICES`. -/
inductive RoomType
  | single
  | double
  | triple
deriving DecidableEq, Repr

/-- hostel/models.py — `Room.STATUS_CHOICES`. -/
inductive RoomStatus
  | vacant
  | occupied
  | maintenance
deriving DecidableEq, Repr

/-- The stored string of a `RoomStatus` (the CharField value). -/
def RoomStatus.str : RoomStatus → String
  | .vacant => "vacant"
  | .occupied => "occupied"
  | .maintenance => "maintenance"

/-- The stored string of a `RoomType` (the CharField value). -/
def RoomType.str : RoomType → String
  | .single => "single"
  | .double => "double"
  | .triple => "triple"

/-- hostel/models.py — `Room` (fields read by the core logic; the free-text
`description` and the timestamps are omitted as inert). `capacity` is an
`IntegerField`, hence `Int`. -/
structure Room where
  id : Nat
  room_no : String
  room_type : RoomType
  capacity : Int
  floor : Int
  status : RoomStatus
deriving DecidableEq, Repr

/-- hostel/models.py — `StudentProfile` (fields read by the core logic;
the inert contact/address/date-of-birth fields are omitted). `room` is the
nullable foreign key (`SET_NULL`). -/
structure StudentProfile where
  id : Nat
  user_id : Nat
  room : Option Nat
  is_active : Bool
deriving DecidableEq, Repr

/-- hostel/models.py — `Fee.STATUS_CHOICES`. -/
inductive FeeStatus
  | unpaid
  | paid
  | overdue
deriving DecidableEq, Repr

/-- The stored string of a `FeeStatus` (the CharField value). -/
def FeeStatus.str : FeeStatus → String
  | .unpaid => "unpaid"
  | .paid => "paid"
  | .overdue => "overdue"

/-- hostel/models.py — `Fee` (free-text `notes` and timestamps omitted). -/
structure Fee where
  id : Nat
  student : Nat
  amount : Int
  due_date : Nat
  paid_date : Option Nat
  status : FeeStatus
  payment_method : Option String
deriving DecidableEq, Repr

/-- hostel/models.py — `Attendance.STATUS_CHOICES`. -/
inductive AttStatus
  | present
  | absent
  | leave
deriving DecidableEq, Repr

/-- The stored string of an `AttStatus` (the CharField value). -/
def AttStatus.str : AttStatus → String
  | .present => "present"
  | .absent => "absent"
  | .leave => "leave"

/-- hostel/models.py — `Attendance` (free-text `notes` and the creation
timestamp omitted). -/
structure Attendance where
  id : Nat
  student : Nat
  date : Nat
  status : AttStatus
  marked_by : Option Nat
deriving DecidableEq, Repr

/-- hostel/models.py — `Visitor` (the name/purpose/contact text fields are
omitted; `in_date` is the calendar date of `in_time`, which is all the
filters and aggregates read). -/
structure Visitor where
  id : Nat
  student : Nat
  in_date : Nat
  approved_by : Option Nat
deriving DecidableEq, Repr

/-- hostel/models.py — `Complaint.STATUS_CHOICES`. -/
inductive ComplaintStatus
  | pending
  | in_progress
  | resolved
deriving DecidableEq, Repr

/-- The stored string of a `ComplaintStatus` (the CharField value). -/
def ComplaintStatus.str : ComplaintStatus → String
  | .pending => "pending"
  | .in_progress => "in_progress"
  | .resolved => "resolved"

/-- hostel/models.py — `Complaint` (title/description/category/priority are
inert for the claims and omitted). -/
structure Complaint where
  id : Nat
  student : Nat
  status : ComplaintStatus
  resolved_by : Option Nat
  resolution_notes : Option String
deriving DecidableEq, Repr

/-- hostel/models.py — `MessMenu` (menu text fields omitted). -/
structure MessMenu where
  id : Nat
  date : Nat
deriving DecidableEq, Repr

/-- The persistent store: one list per table. -/
structure Store where
  rooms : List Room
  students : List StudentProfile
  fees : List Fee
  attendance : List Attendance
  visitors : List Visitor
  complaints : List Complaint
  messMenus : List MessMenu
deriving DecidableEq, Repr

/-- hostel/models.py — `Room.current_occupancy`:
`self.students.filter(is_active=True).count()`, the number of active
student profiles whose `room` foreign key references this room. -/
def Room.current_occupancy (r : Room) (students : List StudentProfile) : Nat :=
  (students.filter (fun s => s.room == some r.id && s.is_active)).length

/-- hostel/models.py — `Room.is_available`:
`self.status == self.VACANT and self.current_occupancy < self.capacity`. -/
def Room.is_available (r : Room) (students : List StudentProfile) : Bool :=
  r.status == RoomStatus.vacant
    && decide ((Room.current_occupancy r students : Int) < r.capacity)

/-- Lookup of the reverse one-to-one accessor `user.student_profile`;
`none` corresponds to `hasattr(user, 'student_profile')` being false. -/
def userProfile (db : Store) (u : User) : Option StudentProfile :=
  db.students.find? (fun s => s.user_id == u.id)

/-- Primary-key lookup of a room, `Room.objects.get(id=rid)`. -/
def roomById (db : Store) (rid : Nat) : Option Room :=
  db.rooms.find? (fun r => r.id == rid)

/-- Primary-key lookup of a student profile. -/
def profileById (db : Store) (pid : Nat) : Option StudentProfile :=
  db.students.find? (fun s => s.id == pid)

/-- The ORM write of one row: replace the row with the same primary key, or
append a fresh row. -/
def upsertProfile (students : List StudentProfile) (s : StudentProfile) :
    List StudentProfile :=
  if students.any (fun t => t.id == s.id) then
    students.map (fun t => if t.id == s.id then s else t)
  else
    students ++ [s]

/-- Row update of one room by primary key. -/
def updateRoom (rooms : List Room) (r : Room) : List Room :=
  rooms.map (fun q => if q.id == r.id then r else q)

/-- hostel/models.py — `StudentProfile.save`: persist the profile via
`super().save()`, then, when the profile references a room and is active and
that room currently has occupants while still `vacant`, flip the room status
to `occupied` and persist the room. -/
def StudentProfile.save (db : Store) (s : StudentProfile) : Store :=
  let db1 : Store := { db with students := upsertProfile db.students s }
  match s.room with
  | none => db1
  | some rid =>
    if s.is_active then
      match roomById db1 rid with
      | none => db1
      | some r =>
        if Room.current_occupancy r db1.students > 0 ∧ r.status = RoomStatus.vacant then
          { db1 with rooms := updateRoom db1.rooms { r with status := RoomStatus.occupied } }
        else db1
    else db1

/-- hostel/models.py — `Fee.save`: before persisting,
`if self.status == self.UNPAID and self.due_date < timezone.now().date():
self.status = self.OVERDUE`. Returns the row as persisted. -/
def Fee.save (f : Fee) (today : Nat) : Fee :=
  if f.status = FeeStatus.unpaid ∧ f.due_date < today then
    { f with status := FeeStatus.overdue }
  else f

/-- The two error channels the handlers use. -/
inductive ApiError
  | not_found (msg : String)
  | bad_request (msg : String)
deriving DecidableEq, Repr

/-- hostel/views.py — `StudentProfileViewSet.assign_room`: look the room up
(404 when absent), reject with 400 when `room.is_available` is false, else
set `student.room` and run `student.save()`. On a rejection the store is
returned untouched. -/
def StudentProfileViewSet.assign_room (db : Store) (student : StudentProfile)
    (room_id : Nat) : Store × Option ApiError :=
  match roomById db room_id with
  | none => (db, some (ApiError.not_found "Room not found"))
  | some room =>
    if Room.is_available room db.students then
      (StudentProfile.save db { student with room := some room.id }, none)
    else
      (db, some (ApiError.bad_request "Room is not available"))

/-- hostel/views.py — `FeeViewSet.mark_paid`: set `status = PAID`,
`paid_date = timezone.now().date()`, `payment_method = method`, then
`fee.save()`. Returns the fee row as persisted. -/
def FeeViewSet.mark_paid (f : Fee) (method : String) (today : Nat) : Fee :=
  Fee.save
    { f with
      status := FeeStatus.paid
      paid_date := some today
      payment_method := some method }
    today

/-- hostel/models.py — `Attendance.Meta.unique_together = ['student', 'date']`:
the storage-layer insert rejects a row whose (student, date) pair already
exists and leaves the table unchanged; otherwise it appends the row. -/
def Attendance.create (l : List Attendance) (a : Attendance) :
    List Attendance × Option String :=
  if l.any (fun b => b.student == a.student && b.date == a.date) then
    (l, some "UNIQUE constraint failed: attendance student, date")
  else
    (l ++ [a], none)

/-- No two attendance rows share a (student, date) pair. -/
def attendanceKeyUnique (l : List Attendance) : Prop :=
  l.Pairwise (fun a b => ¬(a.student = b.student ∧ a.date = b.date))

/-- Python truthiness of a string query parameter
(`request.query_params.get(..., None)` followed by `if param:`): the filter
applies only when the parameter is present and non-empty. -/
def strParam (p : Option String) : Option String :=
  match p with
  | some s => if s = "" then none else some s
  | none => none

/-- hostel/views.py — `FeeViewSet.get_queryset`: start from all fees; when the
requester is a student who has a profile, keep only that profile's fees; then
apply the optional `status` and `student_id` filters (the `student_id`
parameter is modelled already parsed to a key). -/
def FeeViewSet.get_queryset (db : Store) (u : User) (status_p : Option String)
    (student_id_p : Option Nat) : List Fee :=
  let q := db.fees
  let q :=
    match userProfile db u with
    | some p => if u.is_student then q.filter (fun f => f.student == p.id) else q
    | none => q
  let q :=
    match strParam status_p with
    | some s => q.filter (fun f => f.status.str == s)
    | none => q
  match student_id_p with
  | some sid => q.filter (fun f => f.student == sid)
  | none => q

/-- hostel/views.py — `RoomViewSet.get_queryset`: all rooms, with the optional
`status` and `type` filters. -/
def RoomViewSet.get_queryset (db : Store) (status_p : Option String)
    (type_p : Option String) : List Room :=
  let q := db.rooms
  let q :=
    match strParam status_p with
    | some s => q.filter (fun r => r.status.str == s)
    | none => q
  match strParam type_p with
  | some s => q.filter (fun r => r.room_type.str == s)
  | none => q

/-- hostel/views.py — `StudentProfileViewSet.get_queryset`: students see only
their own profile (`filter(user=user)`, no `hasattr` guard here); then the
optional `is_active` filter (applied whenever the parameter is present, even
empty: the source tests `is not None`) and the optional `fee_status` filter
(`filter(fees__status=...).distinct()`, i.e. profiles having some fee with
that status). -/
def StudentProfileViewSet.get_queryset (db : Store) (u : User)
    (is_active_p : Option String) (fee_status_p : Option String) :
    List StudentProfile :=
  let q := db.students
  let q := if u.is_student then q.filter (fun s => s.user_id == u.id) else q
  let q :=
    match is_active_p with
    | some s => q.filter (fun t => t.is_active == (s.toLower == "true"))
    | none => q
  match strParam fee_status_p with
  | some fs =>
    q.filter (fun t => db.fees.any (fun f => f.student == t.id && f.status.str == fs))
  | none => q

/-- hostel/views.py — `AttendanceViewSet.get_queryset`: students with a
profile see only their own records; then the optional `date`, `student_id`
and `status` filters (`date` and `student_id` modelled already parsed). -/
def AttendanceViewSet.get_queryset (db : Store) (u : User)
    (date_p : Option Nat) (student_id_p : Option Nat)
    (status_p : Option String) : List Attendance :=
  let q := db.attendance
  let q :=
    match userProfile db u with
    | some p => if u.is_student then q.filter (fun a => a.student == p.id) else q
    | none => q
  let q :=
    match date_p with
    | some d => q.filter (fun a => a.date == d)
    | none => q
  let q :=
    match student_id_p with
    | some sid => q.filter (fun a => a.student == sid)
    | none => q
  match strParam status_p with
  | some s => q.filter (fun a => a.status.str == s)
  | none => q

/-- hostel/views.py — `VisitorViewSet.get_queryset`: students with a profile
see only their own visitors; then the optional `student_id` filter and the
truthy `today` flag (`filter(in_time__date=date.today())`). -/
def VisitorViewSet.get_queryset (db : Store) (u : User)
    (student_id_p : Option Nat) (today_p : Option String) (today : Nat) :
    List Visitor :=
  let q := db.visitors
  let q :=
    match userProfile db u with
    | some p => if u.is_student then q.filter (fun v => v.student == p.id) else q
    | none => q
  let q :=
    match student_id_p with
    | some sid => q.filter (fun v => v.student == sid)
    | none => q
  match strParam today_p with
  | some _ => q.filter (fun v => v.in_date == today)
  | none => q

/-- hostel/views.py — `ComplaintViewSet.get_queryset`: students with a profile
see only their own complaints; then the optional `status` and `student_id`
filters. -/
def ComplaintViewSet.get_queryset (db : Store) (u : User)
    (status_p : Option String) (student_id_p : Option Nat) : List Complaint :=
  let q := db.complaints
  let q :=
    match userProfile db u with
    | some p => if u.is_student then q.filter (fun c => c.student == p.id) else q
    | none => q
  let q :=
    match strParam status_p with
    | some s => q.filter (fun c => c.status.str == s)
    | none => q
  match student_id_p with
  | some sid => q.filter (fun c => c.student == sid)
  | none => q

/-- hostel/views.py — `MessMenuViewSet.get_queryset`: all menus, with the
optional `date` filter (modelled already parsed). -/
def MessMenuViewSet.get_queryset (db : Store) (date_p : Option Nat) :
    List MessMenu :=
  match date_p with
  | some d => db.messMenus.filter (fun m => m.date == d)
  | none => db.messMenus

/-- The viewset actions the routers expose (`partial_update` is spelled
`patch` here). -/
inductive Action
  | list
  | retrieve
  | create
  | update
  | patch
  | destroy
  | update_status
  | assign_room
  | mark_paid
  | summary
  | resolve
  | today
deriving DecidableEq, Repr

/-- accounts/permissions.py — `IsAdmin.has_permission`. -/
def IsAdmin (u : User) : Bool := u.is_authenticated && u.is_admin

/-- accounts/permissions.py — `IsWarden.has_permission`. -/
def IsWarden (u : User) : Bool := u.is_authenticated && u.is_warden

/-- accounts/permissions.py — `IsStudent.has_permission`. -/
def IsStudent (u : User) : Bool := u.is_authenticated && u.is_student

/-- accounts/permissions.py — `IsAdminOrWarden.has_permission`. -/
def IsAdminOrWarden (u : User) : Bool :=
  u.is_authenticated && (u.is_admin || u.is_warden)

/-- The framework's `IsAuthenticated` permission. -/
def IsAuthenticated (u : User) : Bool := u.is_authenticated

/-- The framework's `AllowAny` permission. -/
def AllowAny (_ : User) : Bool := true

/-- hostel/views.py — `RoomViewSet.get_permissions`: only admins may create,
update or delete; everyone authenticated may read. -/
def RoomViewSet.get_permissions (a : Action) : User → Bool :=
  if a = .create ∨ a = .update ∨ a = .patch ∨ a = .destroy then IsAdmin
  else IsAuthenticated

/-- hostel/views.py — `StudentProfileViewSet.get_permissions`. -/
def StudentProfileViewSet.get_permissions (a : Action) : User → Bool :=
  if a = .create ∨ a = .update ∨ a = .patch ∨ a = .destroy then IsAdmin
  else IsAuthenticated

/-- hostel/views.py — `FeeViewSet.get_permissions`. -/
def FeeViewSet.get_permissions (a : Action) : User → Bool :=
  if a = .create ∨ a = .update ∨ a = .patch ∨ a = .destroy then IsAdmin
  else IsAuthenticated

/-- hostel/views.py — `AttendanceViewSet.get_permissions`: admins and wardens
may create or update, only admins may delete. -/
def AttendanceViewSet.get_permissions (a : Action) : User → Bool :=
  if a = .create ∨ a = .update ∨ a = .patch then IsAdminOrWarden
  else if a = .destroy then IsAdmin
  else IsAuthenticated

/-- hostel/views.py — `VisitorViewSet.get_permissions`. -/
def VisitorViewSet.get_permissions (a : Action) : User → Bool :=
  if a = .create ∨ a = .update ∨ a = .patch ∨ a = .destroy then
    IsAdminOrWarden
  else IsAuthenticated

/-- hostel/views.py — `ComplaintViewSet.get_permissions`: any authenticated
user may create, admins and wardens may update or delete. -/
def ComplaintViewSet.get_permissions (a : Action) : User → Bool :=
  if a = .create then IsAuthenticated
  else if a = .update ∨ a = .patch ∨ a = .destroy then IsAdminOrWarden
  else IsAuthenticated

/-- hostel/views.py — `MessMenuViewSet.get_permissions`. -/
def MessMenuViewSet.get_permissions (a : Action) : User → Bool :=
  if a = .create ∨ a = .update ∨ a = .patch ∨ a = .destroy then IsAdmin
  else IsAuthenticated

/-- hostel/views.py — `ContactMessageViewSet.get_permissions`: anyone may
create, everything else is admin-only. -/
def ContactMessageViewSet.get_permissions (a : Action) : User → Bool :=
  if a = .create then AllowAny
  else IsAdmin

/-- The entities exposed by the API. -/
inductive Entity
  | room
  | studentProfile
  | fee
  | attendance
  | visitor
  | complaint
  | messMenu
  | contactMessage
deriving DecidableEq, Repr

/-- The permission check performed for (entity, action, user): the viewset's
`get_permissions`, overridden by the `permission_classes` of the four extra
`@action` endpoints that declare one. -/
def hasPermission (e : Entity) (a : Action) (u : User) : Bool :=
  match e with
  | .room =>
    if a = .update_status then IsAdmin u else RoomViewSet.get_permissions a u
  | .studentProfile =>
    if a = .assign_room then IsAdmin u
    else StudentProfileViewSet.get_permissions a u
  | .fee =>
    if a = .mark_paid then IsAdmin u else FeeViewSet.get_permissions a u
  | .attendance => AttendanceViewSet.get_permissions a u
  | .visitor => VisitorViewSet.get_permissions a u
  | .complaint =>
    if a = .resolve then IsAdminOrWarden u
    else ComplaintViewSet.get_permissions a u
  | .messMenu => MessMenuViewSet.get_permissions a u
  | .contactMessage => ContactMessageViewSet.get_permissions a u

/-- `Sum('amount')` aggregation followed by `or 0`: the SQL sum of no rows is
NULL, coalesced to 0. -/
def aggregate_sum (xs : List Int) : Int :=
  match xs with
  | [] => 0
  | _ => xs.sum

/-- hostel/views.py — the base block of `dashboard_stats`. -/
structure BaseStats where
  total_rooms : Nat
  occupied_rooms : Nat
  available_rooms : Nat
  total_students : Nat
  active_students : Nat
deriving DecidableEq, Repr

/-- hostel/views.py — the admin/warden block of `dashboard_stats`. -/
structure StaffStats where
  pending_fees : Nat
  total_fees_amount : Int
  paid_fees_amount : Int
  todays_visitors : Nat
  pending_complaints : Nat
  todays_attendance : Nat
deriving DecidableEq, Repr

/-- hostel/views.py — the student block of `dashboard_stats` (the `room` field
is the assigned room id, when any). -/
structure StudentStats where
  room : Option Nat
  pending_fees : Nat
  total_attendance : Nat
  present_days : Nat
  pending_complaints : Nat
deriving DecidableEq, Repr

/-- The shape of the `dashboard_stats` response: the base block with an
optional staff block, or — for a student with a profile — the student block
that replaces it. -/
inductive DashboardResponse
  | general (base : BaseStats) (staff : Option StaffStats)
  | stu (s : StudentStats)
deriving DecidableEq, Repr

/-- hostel/views.py — `dashboard_stats`: base counters, the staff block when
the requester is admin or warden, replaced wholesale by the student block when
the requester is a student with a profile. -/
def dashboard_stats (db : Store) (today : Nat) (u : User) : DashboardResponse :=
  let base : BaseStats :=
    { total_rooms := db.rooms.length
      occupied_rooms := (db.rooms.filter (fun r => r.status == RoomStatus.occupied)).length
      available_rooms := (db.rooms.filter (fun r => r.status == RoomStatus.vacant)).length
      total_students := db.students.length
      active_students := (db.students.filter (fun s => s.is_active)).length }
  let staff : Option StaffStats :=
    if u.is_admin || u.is_warden then
      some
        { pending_fees :=
            (db.fees.filter (fun f =>
              f.status == FeeStatus.unpaid || f.status == FeeStatus.overdue)).length
          total_fees_amount := aggregate_sum (db.fees.map (fun f => f.amount))
          paid_fees_amount :=
            aggregate_sum
              ((db.fees.filter (fun f => f.status == FeeStatus.paid)).map
                (fun f => f.amount))
          todays_visitors := (db.visitors.filter (fun v => v.in_date == today)).length
          pending_complaints :=
            (db.complaints.filter (fun c => c.status == ComplaintStatus.pending)).length
          todays_attendance :=
            (db.attendance.filter (fun a =>
              a.date == today && a.status == AttStatus.present)).length }
    else none
  match userProfile db u with
  | some p =>
    if u.is_student then
      DashboardResponse.stu
        { room := p.room
          pending_fees :=
            (db.fees.filter (fun f =>
              f.student == p.id &&
                (f.status == FeeStatus.unpaid || f.status == FeeStatus.overdue))).length
          total_attendance := (db.attendance.filter (fun a => a.student == p.id)).length
          present_days :=
            (db.attendance.filter (fun a =>
              a.student == p.id && a.status == AttStatus.present)).length
          pending_complaints :=
            (db.complaints.filter (fun c =>
              c.student == p.id && c.status == ComplaintStatus.pending)).length }
    else DashboardResponse.general base staff
  | none => DashboardResponse.general base staff

/-- The staff block of a dashboard response, when present. -/
def DashboardResponse.staffBlock : DashboardResponse → Option StaffStats
  | .general _ st => st
  | .stu _ => none

/-! ### Concrete sample data for the witnesses and counterexamples -/

/-- A vacant single room, id 1. -/
def roomC1 : Room :=
  { id := 1, room_no := "101", room_type := RoomType.single, capacity := 1,
    floor := 1, status := RoomStatus.vacant }

/-- An unassigned active student profile. -/
def studentC1 : StudentProfile :=
  { id := 7, user_id := 3, room := none, is_active := true }

/-- Store with one vacant room and one unassigned student. -/
def dbC1 : Store :=
  { rooms := [roomC1], students := [studentC1], fees := [], attendance := [],
    visitors := [], complaints := [], messMenus := [] }

/-- An attendance row for student 7 on day 4. -/
def attC2a : Attendance :=
  { id := 1, student := 7, date := 4, status := AttStatus.present,
    marked_by := some 2 }

/-- A second attendance row for the same (student, date) pair. -/
def attC2b : Attendance :=
  { id := 2, student := 7, date := 4, status := AttStatus.absent,
    marked_by := some 2 }

/-- An unpaid fee due on day 5. -/
def feeC3 : Fee :=
  { id := 1, student := 7, amount := 15000, due_date := 5, paid_date := none,
    status := FeeStatus.unpaid, payment_method := none }

/-- A paid fee due on day 5. -/
def feeC3paid : Fee :=
  { id := 2, student := 7, amount := 15000, due_date := 5,
    paid_date := some 5, status := FeeStatus.paid, payment_method := some "Cash" }

/-- An authenticated admin user with no student profile. -/
def adminC3 : User := { id := 9, role := Role.admin, is_authenticated := true }

/-- Store holding just the overdue-but-unpaid fee. -/
def dbC3 : Store :=
  { rooms := [], students := [], fees := [feeC3], attendance := [],
    visitors := [], complaints := [], messMenus := [] }

/-- An authenticated student-role user (id 1) who has no StudentProfile. -/
def userC4 : User := { id := 1, role := Role.student, is_authenticated := true }

/-- A profile belonging to a different user (id 2). -/
def profileC4 : StudentProfile :=
  { id := 10, user_id := 2, room := none, is_active := true }

/-- A fee owned by the other user's profile. -/
def feeC4 : Fee :=
  { id := 1, student := 10, amount := 5000, due_date := 20, paid_date := none,
    status := FeeStatus.unpaid, payment_method := none }

/-- Store where the only fee belongs to user 2's profile. -/
def dbC4 : Store :=
  { rooms := [], students := [profileC4], fees := [feeC4], attendance := [],
    visitors := [], complaints := [], messMenus := [] }

/-- An authenticated warden. -/
def wardenC5 : User := { id := 4, role := Role.warden, is_authenticated := true }

/-- A small store exercised by the warden-capability witness. -/
def dbC5 : Store :=
  { rooms := [roomC1], students := [profileC4], fees := [feeC4],
    attendance := [attC2a],
    visitors := [{ id := 1, student := 10, in_date := 4, approved_by := some 4 }],
    complaints :=
      [{ id := 1, student := 10, status := ComplaintStatus.pending,
         resolved_by := none, resolution_notes := none }],
    messMenus := [{ id := 1, date := 4 }] }

/-- An active student profile about to be assigned room 1. -/
def studentC6 : StudentProfile :=
  { id := 5, user_id := 9, room := some 1, is_active := true }

/-- A vacant double room, id 1, capacity 2. -/
def roomC6 : Room :=
  { id := 1, room_no := "102", room_type := RoomType.double,
    capacity := 2, floor := 1, status := RoomStatus.vacant }

/-- Store with one vacant room (id 1, capacity 2) and no students yet. -/
def dbC6 : Store :=
  { rooms := [roomC6], students := [], fees := [], attendance := [],
    visitors := [], complaints := [], messMenus := [] }

/-- An arbitrary fee the `mark_paid` scenario starts from. -/
def feeC7 : Fee :=
  { id := 3, student := 7, amount := 15000, due_date := 2, paid_date := none,
    status := FeeStatus.overdue, payment_method := none }

/-- An authenticated admin for the dashboard witness. -/
def adminC8 : User := { id := 11, role := Role.admin, is_authenticated := true }

/-- Store with a paid and an unpaid fee for the dashboard sums. -/
def dbC8 : Store :=
  { rooms := [], students := [],
    fees :=
      [feeC3,
       { id := 2, student := 7, amount := 7500, due_date := 6,
         paid_date := some 6, status := FeeStatus.paid,
         payment_method := some "Cash" }],
    attendance := [], visitors := [], complaints := [], messMenus := [] }

/-- Store with one (valid-status) fee and one room for the filter scenario. -/
def dbC9 : Store :=
  { rooms := [roomC1], students := [], fees := [feeC3paid], attendance := [],
    visitors := [], complaints := [], messMenus := [] }

/-- An inactive profile used by the frame-effect witness. -/
def studentC10 : StudentProfile :=
  { id := 6, user_id := 12, room := some 1, is_active := false }

/-! ### Helper lemmas -/

/-- `find?` commutes with an id-preserving map over the room table. -/
theorem find?_map_id_pres (l : List Room) (g : Room → Room)
    (hg : ∀ r, (g r).id = r.id) (rid : Nat) :
    (l.map g).find? (fun r => r.id == rid) =
      (l.find? (fun r => r.id == rid)).map g := by
  induction l with
  | nil => rfl
  | cons hd tl ih =>
    by_cases h : (hd.id == rid) = true
    · simp [List.find?_cons, hg, h]
    · simp only [List.map_cons, List.find?_cons, hg, h]
      simpa using ih

/-- The row written by `upsertProfile` is in the resulting table. -/
theorem mem_upsertProfile_self (l : List StudentProfile) (s : StudentProfile) :
    s ∈ upsertProfile l s := by
  unfold upsertProfile
  by_cases h : l.any (fun t => t.id == s.id) = true
  · rcases List.any_eq_true.mp h with ⟨t, ht, hts⟩
    simp only [h, if_true]
    exact List.mem_map.mpr ⟨t, ht, by simp [hts]⟩
  · simp [h]

/-- After replacing every row keyed `s.id` by `s`, the first row found under
that key is `s`, provided some row had the key. -/
theorem find?_replace (l : List StudentProfile) (s : StudentProfile)
    (h : l.any (fun t => t.id == s.id) = true) :
    (l.map (fun t => if t.id == s.id then s else t)).find?
      (fun t => t.id == s.id) = some s := by
  induction l with
  | nil => simp at h
  | cons hd tl ih =>
    rw [List.map_cons]
    by_cases hh : (hd.id == s.id) = true
    · rw [if_pos hh]
      exact List.find?_cons_of_pos _ (by simp)
    · rw [if_neg hh,
        List.find?_cons_of_neg (p := fun t : StudentProfile => t.id == s.id) _ hh]
      apply ih
      rcases List.any_eq_true.mp h with ⟨t, ht, hts⟩
      rcases List.mem_cons.mp ht with rfl | htl
      · exact absurd hts hh
      · exact List.any_eq_true.mpr ⟨t, htl, hts⟩

/-- The profile lookup after an upsert returns the written row. -/
theorem profileById_upsert (l : List StudentProfile) (s : StudentProfile) :
    (upsertProfile l s).find? (fun t => t.id == s.id) = some s := by
  unfold upsertProfile
  by_cases h : l.any (fun t => t.id == s.id) = true
  · simp only [h, if_true]
    exact find?_replace l s h
  · have hnone : l.find? (fun t => t.id == s.id) = none := by
      rw [List.find?_eq_none]
      intro t ht hts
      exact h (List.any_eq_true.mpr ⟨t, ht, hts⟩)
    simp only [h, if_false, Bool.false_eq_true]
    rw [List.find?_append, hnone]
    simp

/-- `aggregate_sum` is the list sum (the empty aggregate is 0). -/
theorem aggregate_sum_eq (xs : List Int) : aggregate_sum xs = xs.sum := by
  cases xs <;> simp [aggregate_sum]

/-- `updateRoom` preserves the list of room ids. -/
theorem updateRoom_map_id (rooms : List Room) (r : Room) :
    (updateRoom rooms r).map Room.id = rooms.map Room.id := by
  unfold updateRoom
  rw [List.map_map]
  apply List.map_congr_left
  intro q hq
  simp only [Function.comp_apply]
  by_cases hqe : (q.id == r.id) = true
  · rw [if_pos hqe]
    have hqr : q.id = r.id := by simpa using hqe
    exact hqr.symm
  · rw [if_neg hqe]

/-! ### Claim theorems -/

/-- C1: for every student profile and every existing room, `assign_room`
succeeds exactly when the room's `is_available` (status vacant and active
occupancy strictly below capacity) is true at evaluation time; when it is
false the handler rejects with the availability error and returns the store
untouched, so the student's prior room reference is unchanged. -/
theorem assign_room_iff_available (db : Store) (student : StudentProfile)
    (rid : Nat) (room : Room) (hfind : roomById db rid = some room) :
    ((StudentProfileViewSet.assign_room db student rid).2 = none ↔
      Room.is_available room db.students = true)
    ∧ (Room.is_available room db.students = false →
        StudentProfileViewSet.assign_room db student rid =
          (db, some (ApiError.bad_request "Room is not available"))) := by
  unfold StudentProfileViewSet.assign_room
  rw [hfind]
  cases h : Room.is_available room db.students <;> simp [h]

/-- Witness for C1: in `dbC1` room 1 exists, and the theorem's conclusion
holds for assigning it to `studentC1`. -/
theorem assign_room_iff_available_witness :
    ((StudentProfileViewSet.assign_room dbC1 studentC1 1).2 = none ↔
      Room.is_available roomC1 dbC1.students = true)
    ∧ (Room.is_available roomC1 dbC1.students = false →
        StudentProfileViewSet.assign_room dbC1 studentC1 1 =
          (dbC1, some (ApiError.bad_request "Room is not available"))) :=
  assign_room_iff_available dbC1 studentC1 1 roomC1 (by decide)

/-- C2: under the per-(student, date) uniqueness invariant declared by
`Attendance.Meta.unique_together`, inserting a row whose (student, date) pair
already exists fails with the uniqueness-violation error and leaves the table
unchanged, while a successful insert preserves the invariant, so at most one
record per pair ever exists. -/
theorem attendance_create_unique (l : List Attendance) (a : Attendance)
    (hu : attendanceKeyUnique l) :
    ((∃ b ∈ l, b.student = a.student ∧ b.date = a.date) →
      Attendance.create l a =
        (l, some "UNIQUE constraint failed: attendance student, date"))
    ∧ ((Attendance.create l a).2 = none →
        attendanceKeyUnique (Attendance.create l a).1) := by
  constructor
  · rintro ⟨b, hb, h1, h2⟩
    unfold Attendance.create
    rw [if_pos]
    exact List.any_eq_true.mpr ⟨b, hb, by simp [h1, h2]⟩
  · intro hok
    by_cases hc : (l.any fun b => b.student == a.student && b.date == a.date) = true
    · simp [Attendance.create, hc] at hok
    · unfold Attendance.create at hok ⊢
      rw [if_neg hc] at hok ⊢
      refine List.pairwise_append.mpr ⟨hu, List.pairwise_singleton _ _, ?_⟩
      intro x hx y hy
      rcases List.mem_singleton.mp hy with rfl
      intro hcon
      exact hc (List.any_eq_true.mpr ⟨x, hx, by simp [hcon.1, hcon.2]⟩)

/-- Witness for C2: the table `[attC2a]` is key-unique, and inserting
`attC2b`, which repeats the (student 7, day 4) pair, fails with the
uniqueness error and returns the table unchanged. -/
theorem attendance_create_unique_witness :
    Attendance.create [attC2a] attC2b =
      ([attC2a], some "UNIQUE constraint failed: attendance student, date") :=
  (attendance_create_unique [attC2a] attC2b
    (by simp [attendanceKeyUnique])).1 (by decide)

/-- C3 counterexample: reads do not re-stamp. At day 10 the stored fee
`feeC3` is `unpaid` with due date 5 < 10; listing fees (the read path,
`FeeViewSet.get_queryset` plus serialization) returns the record still
`unpaid`, not `overdue`, and touches no store state. -/
theorem fee_read_no_restamp :
    feeC3.status = FeeStatus.unpaid ∧ feeC3.due_date < 10 ∧
    FeeViewSet.get_queryset dbC3 adminC3 none none = [feeC3] ∧
    feeC3.status ≠ FeeStatus.overdue := by decide

/-- C3 (amended): every write evaluation (`Fee.save`, run on each create or
update) at a date T re-stamps the record: an `unpaid` fee whose due date is
strictly before T becomes `overdue`; and saving a `paid` fee never reverts it
to `overdue`. Reads return the stored status unchanged. -/
theorem fee_save_overdue (f : Fee) (t : Nat) :
    (f.status = FeeStatus.unpaid → f.due_date < t →
      (Fee.save f t).status = FeeStatus.overdue)
    ∧ (f.status = FeeStatus.paid → (Fee.save f t).status = FeeStatus.paid) := by
  constructor
  · intro h1 h2
    simp [Fee.save, h1, h2]
  · intro h1
    simp [Fee.save, h1]

/-- Witness for C3: saving the unpaid fee `feeC3` (due day 5) at day 10 marks
it `overdue`; saving the paid fee `feeC3paid` at day 10 leaves it `paid`. -/
theorem fee_save_overdue_witness :
    (Fee.save feeC3 10).status = FeeStatus.overdue ∧
    (Fee.save feeC3paid 10).status = FeeStatus.paid :=
  ⟨(fee_save_overdue feeC3 10).1 (by decide) (by decide),
   (fee_save_overdue feeC3paid 10).2 (by decide)⟩

/-- C7: `mark_paid` on any fee and any method sets status `paid`, stamps the
paid date to today and records the method; re-applying it (same or different
method/day) succeeds and merely overwrites the method and the paid date, and
re-application with the same method on the same day is idempotent. -/
theorem mark_paid_overwrite_idempotent (f : Fee) (m m2 : String) (t t2 : Nat) :
    (FeeViewSet.mark_paid f m t).status = FeeStatus.paid
    ∧ (FeeViewSet.mark_paid f m t).paid_date = some t
    ∧ (FeeViewSet.mark_paid f m t).payment_method = some m
    ∧ FeeViewSet.mark_paid (FeeViewSet.mark_paid f m t) m2 t2 =
        { FeeViewSet.mark_paid f m t with
          payment_method := some m2
          paid_date := some t2 }
    ∧ FeeViewSet.mark_paid (FeeViewSet.mark_paid f m t) m t =
        FeeViewSet.mark_paid f m t := by
  simp [FeeViewSet.mark_paid, Fee.save]

/-- C4: the code leaks: a student-role user with no StudentProfile receives
the full, unfiltered fee list. In `dbC4` user 1 has role student and no
profile, the only fee belongs to the profile of user 2, yet the listing
returns that fee — contradicting the viewset's own contract that students
read their own fees only. -/
theorem fee_list_profileless_student_leak :
    userC4.role = Role.student
    ∧ userProfile dbC4 userC4 = none
    ∧ FeeViewSet.get_queryset dbC4 userC4 none none = [feeC4]
    ∧ profileById dbC4 feeC4.student = some profileC4
    ∧ profileC4.user_id ≠ userC4.id := by decide

/-- C8: for every dashboard request by an admin-role user, the staff block is
present and its `total_fees_amount` is the sum of `amount` over all fees while
`paid_fees_amount` is the sum over exactly the fees with status `paid` (both 0
on an empty set, as the empty list sum is 0). -/
theorem dashboard_fee_sums (db : Store) (t : Nat) (u : User)
    (h : u.role = Role.admin) :
    (dashboard_stats db t u).staffBlock.map StaffStats.total_fees_amount =
      some ((db.fees.map (fun f => f.amount)).sum)
    ∧ (dashboard_stats db t u).staffBlock.map StaffStats.paid_fees_amount =
      some
        (((db.fees.filter (fun f => f.status == FeeStatus.paid)).map
          (fun f => f.amount)).sum) := by
  have hadm : u.is_admin = true := by simp [User.is_admin, h]
  have hstu : u.is_student = false := by simp [User.is_student, h]
  unfold dashboard_stats
  cases hup : userProfile db u <;>
    simp [hadm, hstu, DashboardResponse.staffBlock, aggregate_sum_eq]

/-- Witness for C8: in `dbC8` (one unpaid fee of 15000, one paid fee of 7500)
the admin dashboard reports total 22500 and paid 7500, matching the sums. -/
theorem dashboard_fee_sums_witness :
    (dashboard_stats dbC8 3 adminC8).staffBlock.map StaffStats.total_fees_amount =
      some ((dbC8.fees.map (fun f => f.amount)).sum)
    ∧ (dashboard_stats dbC8 3 adminC8).staffBlock.map StaffStats.paid_fees_amount =
      some
        (((dbC8.fees.filter (fun f => f.status == FeeStatus.paid)).map
          (fun f => f.amount)).sum) :=
  dashboard_fee_sums dbC8 3 adminC8 (by decide)

/-- C9 counterexample: a fee list request whose status filter is the
out-of-domain string "bogus" does not fail with a validation error — it
succeeds and returns a result set (here empty: the only stored fee has the
valid status `paid`), and likewise for the room list. -/
theorem invalid_status_filter_succeeds :
    FeeViewSet.get_queryset dbC9 adminC3 (some "bogus") none = []
    ∧ RoomViewSet.get_queryset dbC9 (some "bogus") none = [] := by decide

/-- C9 (amended): a list request whose status filter value lies outside the
enum domain succeeds with the value applied as an ordinary equality
predicate; since every stored row carries an in-domain status, the result set
is empty. No validation error is raised. -/
theorem invalid_status_filter_empty (db : Store) (u : User) (s : String)
    (h1 : s ≠ "") (h2 : s ≠ "unpaid") (h3 : s ≠ "paid") (h4 : s ≠ "overdue")
    (h5 : s ≠ "vacant") (h6 : s ≠ "occupied") (h7 : s ≠ "maintenance") :
    FeeViewSet.get_queryset db u (some s) none = []
    ∧ RoomViewSet.get_queryset db (some s) none = [] := by
  have hf : ∀ st : FeeStatus, (FeeStatus.str st == s) = false := by
    intro st
    cases st
    · exact beq_eq_false_iff_ne.mpr (Ne.symm h2)
    · exact beq_eq_false_iff_ne.mpr (Ne.symm h3)
    · exact beq_eq_false_iff_ne.mpr (Ne.symm h4)
  have hr : ∀ st : RoomStatus, (RoomStatus.str st == s) = false := by
    intro st
    cases st
    · exact beq_eq_false_iff_ne.mpr (Ne.symm h5)
    · exact beq_eq_false_iff_ne.mpr (Ne.symm h6)
    · exact beq_eq_false_iff_ne.mpr (Ne.symm h7)
  have hsp : strParam (some s) = some s := by simp [strParam, h1]
  constructor
  · unfold FeeViewSet.get_queryset
    rw [hsp]
    exact List.filter_eq_nil_iff.mpr (fun f _ => by simp [hf f.status])
  · unfold RoomViewSet.get_queryset
    rw [hsp]
    show List.filter (fun r => r.status.str == s) db.rooms = []
    exact List.filter_eq_nil_iff.mpr (fun r _ => by simp [hr r.status])

/-- Witness for C9: the amended statement applied at the concrete store
`dbC9` and the out-of-domain value "bogus". -/
theorem invalid_status_filter_empty_witness :
    FeeViewSet.get_queryset dbC9 adminC8 (some "bogus") none = []
    ∧ RoomViewSet.get_queryset dbC9 (some "bogus") none = [] :=
  invalid_status_filter_empty dbC9 adminC8 "bogus" (by decide) (by decide)
    (by decide) (by decide) (by decide) (by decide) (by decide)

/-- A non-student requester with no filters sees the whole fee table. -/
theorem fee_queryset_all (db : Store) (u : User) (h : u.is_student = false) :
    FeeViewSet.get_queryset db u none none = db.fees := by
  unfold FeeViewSet.get_queryset
  cases userProfile db u <;> simp [h, strParam]

/-- A non-student requester with no filters sees all student profiles. -/
theorem profile_queryset_all (db : Store) (u : User) (h : u.is_student = false) :
    StudentProfileViewSet.get_queryset db u none none = db.students := by
  unfold StudentProfileViewSet.get_queryset
  simp [h, strParam]

/-- A non-student requester with no filters sees all attendance rows. -/
theorem attendance_queryset_all (db : Store) (u : User)
    (h : u.is_student = false) :
    AttendanceViewSet.get_queryset db u none none none = db.attendance := by
  unfold AttendanceViewSet.get_queryset
  cases userProfile db u <;> simp [h, strParam]

/-- A non-student requester with no filters sees all visitors. -/
theorem visitor_queryset_all (db : Store) (u : User) (t : Nat)
    (h : u.is_student = false) :
    VisitorViewSet.get_queryset db u none none t = db.visitors := by
  unfold VisitorViewSet.get_queryset
  cases userProfile db u <;> simp [h, strParam]

/-- A non-student requester with no filters sees all complaints. -/
theorem complaint_queryset_all (db : Store) (u : User)
    (h : u.is_student = false) :
    ComplaintViewSet.get_queryset db u none none = db.complaints := by
  unfold ComplaintViewSet.get_queryset
  cases userProfile db u <;> simp [h, strParam]

/-- C5 counterexample: the warden `wardenC5` cannot list ContactMessage
records (`ContactMessageViewSet` requires admin for everything but create),
so "all records of every entity are readable" fails as stated. -/
theorem warden_contact_message_not_readable :
    hasPermission Entity.contactMessage Action.list wardenC5 = false := by
  decide

/-- C5 (amended): an authenticated warden can read every entity except
ContactMessage — the list/retrieve permission holds and the unfiltered
querysets return every record; creating and updating Attendance and Visitor
records and resolving a Complaint are permitted; and every create, update,
partial-update or delete on Room, StudentProfile, Fee and MessMenu is
rejected. -/
theorem warden_capabilities (u : User) (db : Store) (t : Nat)
    (hrole : u.role = Role.warden) (hauth : u.is_authenticated = true) :
    (([Entity.room, Entity.studentProfile, Entity.fee, Entity.attendance,
       Entity.visitor, Entity.complaint, Entity.messMenu].all fun e =>
        hasPermission e Action.list u && hasPermission e Action.retrieve u) = true)
    ∧ RoomViewSet.get_queryset db none none = db.rooms
    ∧ StudentProfileViewSet.get_queryset db u none none = db.students
    ∧ FeeViewSet.get_queryset db u none none = db.fees
    ∧ AttendanceViewSet.get_queryset db u none none none = db.attendance
    ∧ VisitorViewSet.get_queryset db u none none t = db.visitors
    ∧ ComplaintViewSet.get_queryset db u none none = db.complaints
    ∧ MessMenuViewSet.get_queryset db none = db.messMenus
    ∧ hasPermission Entity.attendance Action.create u = true
    ∧ hasPermission Entity.attendance Action.update u = true
    ∧ hasPermission Entity.attendance Action.patch u = true
    ∧ hasPermission Entity.visitor Action.create u = true
    ∧ hasPermission Entity.visitor Action.update u = true
    ∧ hasPermission Entity.visitor Action.patch u = true
    ∧ hasPermission Entity.complaint Action.resolve u = true
    ∧ (([Action.create, Action.update, Action.patch,
         Action.destroy].all fun a =>
          !hasPermission Entity.room a u
            && !hasPermission Entity.studentProfile a u
            && !hasPermission Entity.fee a u
            && !hasPermission Entity.messMenu a u) = true) := by
  have hstu : u.is_student = false := by simp [User.is_student, hrole]
  have hadm : u.is_admin = false := by simp [User.is_admin, hrole]
  have hwar : u.is_warden = true := by simp [User.is_warden, hrole]
  refine ⟨?_, ?_, ?_, ?_, ?_, ?_, ?_, ?_, ?_, ?_, ?_, ?_, ?_, ?_, ?_, ?_⟩
  · simp [hasPermission, RoomViewSet.get_permissions,
      StudentProfileViewSet.get_permissions, FeeViewSet.get_permissions,
      AttendanceViewSet.get_permissions, VisitorViewSet.get_permissions,
      ComplaintViewSet.get_permissions, MessMenuViewSet.get_permissions,
      IsAdmin, IsAdminOrWarden, IsAuthenticated, hadm, hwar, hauth]
  · unfold RoomViewSet.get_queryset
    simp [strParam]
  · exact profile_queryset_all db u hstu
  · exact fee_queryset_all db u hstu
  · exact attendance_queryset_all db u hstu
  · exact visitor_queryset_all db u t hstu
  · exact complaint_queryset_all db u hstu
  · rfl
  all_goals
    simp [hasPermission, RoomViewSet.get_permissions,
      StudentProfileViewSet.get_permissions, FeeViewSet.get_permissions,
      AttendanceViewSet.get_permissions, VisitorViewSet.get_permissions,
      ComplaintViewSet.get_permissions, MessMenuViewSet.get_permissions,
      IsAdmin, IsAdminOrWarden, IsAuthenticated, hadm, hwar, hauth]

/-- Witness for C5: the amended statement at the concrete warden and the
populated store `dbC5`. -/
theorem warden_capabilities_witness :
    (([Entity.room, Entity.studentProfile, Entity.fee, Entity.attendance,
       Entity.visitor, Entity.complaint, Entity.messMenu].all fun e =>
        hasPermission e Action.list wardenC5
          && hasPermission e Action.retrieve wardenC5) = true)
    ∧ RoomViewSet.get_queryset dbC5 none none = dbC5.rooms
    ∧ StudentProfileViewSet.get_queryset dbC5 wardenC5 none none = dbC5.students
    ∧ FeeViewSet.get_queryset dbC5 wardenC5 none none = dbC5.fees
    ∧ AttendanceViewSet.get_queryset dbC5 wardenC5 none none none = dbC5.attendance
    ∧ VisitorViewSet.get_queryset dbC5 wardenC5 none none 4 = dbC5.visitors
    ∧ ComplaintViewSet.get_queryset dbC5 wardenC5 none none = dbC5.complaints
    ∧ MessMenuViewSet.get_queryset dbC5 none = dbC5.messMenus
    ∧ hasPermission Entity.attendance Action.create wardenC5 = true
    ∧ hasPermission Entity.attendance Action.update wardenC5 = true
    ∧ hasPermission Entity.attendance Action.patch wardenC5 = true
    ∧ hasPermission Entity.visitor Action.create wardenC5 = true
    ∧ hasPermission Entity.visitor Action.update wardenC5 = true
    ∧ hasPermission Entity.visitor Action.patch wardenC5 = true
    ∧ hasPermission Entity.complaint Action.resolve wardenC5 = true
    ∧ (([Action.create, Action.update, Action.patch,
         Action.destroy].all fun a =>
          !hasPermission Entity.room a wardenC5
            && !hasPermission Entity.studentProfile a wardenC5
            && !hasPermission Entity.fee a wardenC5
            && !hasPermission Entity.messMenu a wardenC5) = true) :=
  warden_capabilities wardenC5 dbC5 4 (by decide) (by decide)

/-- C6: saving an active profile that references an existing vacant room
stores the profile (so its room reference equals the requested room) and —
the room then having at least one active occupant, the profile itself —
flips that room's status from vacant to occupied. -/
theorem save_assign_occupies (db : Store) (s : StudentProfile) (rid : Nat)
    (room : Room)
    (hroom : s.room = some rid) (hact : s.is_active = true)
    (hfind : roomById db rid = some room)
    (hvac : room.status = RoomStatus.vacant) :
    roomById (StudentProfile.save db s) rid =
      some { room with status := RoomStatus.occupied }
    ∧ profileById (StudentProfile.save db s) s.id = some s := by
  have hrid : room.id = rid := by
    have := List.find?_some hfind
    simpa using this
  have hfind1 : roomById { db with students := upsertProfile db.students s } rid
      = some room := hfind
  have hocc : Room.current_occupancy room (upsertProfile db.students s) > 0 := by
    have hmem : s ∈ (upsertProfile db.students s).filter
        (fun t => t.room == some room.id && t.is_active) := by
      refine List.mem_filter.mpr ⟨mem_upsertProfile_self _ _, ?_⟩
      simp [hroom, hact, hrid]
    unfold Room.current_occupancy
    exact List.length_pos.mpr (List.ne_nil_of_mem hmem)
  unfold StudentProfile.save
  rw [hroom]
  simp only [hact, if_true]
  rw [hfind1]
  simp only []
  rw [if_pos ⟨hocc, hvac⟩]
  constructor
  · show (updateRoom db.rooms { room with status := RoomStatus.occupied }).find?
      (fun r => r.id == rid) = some { room with status := RoomStatus.occupied }
    unfold updateRoom
    rw [find?_map_id_pres]
    · rw [show db.rooms.find? (fun r => r.id == rid) = some room from hfind]
      simp
    · intro r
      by_cases hq : r.id = room.id
      · simp [hq]
      · simp [hq]
  · show (upsertProfile db.students s).find? (fun t => t.id == s.id) = some s
    exact profileById_upsert _ _

/-- Witness for C6: assigning `studentC6` (active, room 1) in `dbC6` turns
room 1 occupied and stores the profile with room reference 1. -/
theorem save_assign_occupies_witness :
    roomById (StudentProfile.save dbC6 studentC6) 1 =
      some { roomC6 with status := RoomStatus.occupied }
    ∧ profileById (StudentProfile.save dbC6 studentC6) studentC6.id =
      some studentC6 :=
  save_assign_occupies dbC6 studentC6 1 roomC6 (by decide) (by decide)
    (by decide) (by decide)

/-- C10: frame effect of `StudentProfile.save` on the room table (with
distinct primary keys): the list of room ids is unchanged (no room created or
deleted); when the profile has no room or is inactive every room is
untouched; and any room that changes is exactly the profile's assigned room,
changed only from `vacant` to `occupied` — never to `vacant` or
`maintenance` — and only while the profile is active. -/
theorem save_room_frame (db : Store) (s : StudentProfile)
    (hnd : (db.rooms.map Room.id).Nodup) :
    (StudentProfile.save db s).rooms.map Room.id = db.rooms.map Room.id
    ∧ ((s.room = none ∨ s.is_active = false) →
        (StudentProfile.save db s).rooms = db.rooms)
    ∧ ∀ r ∈ db.rooms, ∀ r2 ∈ (StudentProfile.save db s).rooms, r2.id = r.id →
        r2 = r ∨
          (s.is_active = true ∧ s.room = some r.id ∧
            r.status = RoomStatus.vacant ∧
            r2 = { r with status := RoomStatus.occupied }) := by
  have hinj := List.inj_on_of_nodup_map hnd
  have hcases : (StudentProfile.save db s).rooms = db.rooms ∨
      ∃ room, s.is_active = true ∧ s.room = some room.id ∧
        room ∈ db.rooms ∧ room.status = RoomStatus.vacant ∧
        (StudentProfile.save db s).rooms =
          updateRoom db.rooms { room with status := RoomStatus.occupied } := by
    unfold StudentProfile.save
    cases hsr : s.room with
    | none => exact Or.inl rfl
    | some rid =>
      simp only []
      by_cases hact : s.is_active = true
      · rw [if_pos hact]
        cases hfind : roomById
            { db with students := upsertProfile db.students s } rid with
        | none => exact Or.inl rfl
        | some room =>
          simp only []
          have hid : room.id = rid := by
            have := List.find?_some hfind
            simpa using this
          have hmem : room ∈ db.rooms := List.mem_of_find?_eq_some hfind
          by_cases hcond :
              Room.current_occupancy room (upsertProfile db.students s) > 0
                ∧ room.status = RoomStatus.vacant
          · rw [if_pos hcond]
            exact Or.inr ⟨room, hact, by rw [hid], hmem, hcond.2, rfl⟩
          · rw [if_neg hcond]
            exact Or.inl rfl
      · rw [if_neg hact]
        exact Or.inl rfl
  refine ⟨?_, ?_, ?_⟩
  · rcases hcases with h1 | ⟨room, ha, hsome, hmem, hvac, heq⟩
    · rw [h1]
    · rw [heq]
      exact updateRoom_map_id _ _
  · intro h
    rcases hcases with h1 | ⟨room, ha, hsome, hmem, hvac, heq⟩
    · exact h1
    · rcases h with hnone | hinact
      · rw [hnone] at hsome
        cases hsome
      · rw [hinact] at ha
        cases ha
  · intro r hr r2 hr2 hid
    rcases hcases with h1 | ⟨room, ha, hsome, hmem, hvac, heq⟩
    · rw [h1] at hr2
      exact Or.inl (hinj hr2 hr hid)
    · rw [heq] at hr2
      unfold updateRoom at hr2
      rcases List.mem_map.mp hr2 with ⟨q, hq, hgq⟩
      by_cases hqe : q.id = room.id
      · have hqroom : q = room := hinj hq hmem hqe
        have hr2eq : r2 = { room with status := RoomStatus.occupied } := by
          rw [← hgq, hqroom]
          simp
        have hroomr : room = r := by
          apply hinj hmem hr
          rw [← hid, hr2eq]
        subst hroomr
        exact Or.inr ⟨ha, hsome, hvac, hr2eq⟩
      · have hq2 : q = r2 := by
          rw [← hgq]
          simp [hqe]
        exact Or.inl (hinj (hq2 ▸ hq) hr hid)

/-- Witness for C10: in `dbC6` (ids pairwise distinct) saving the inactive
profile `studentC10` preserves the id list and leaves every room unchanged. -/
theorem save_room_frame_witness :
    (StudentProfile.save dbC6 studentC10).rooms.map Room.id =
      dbC6.rooms.map Room.id
    ∧ (StudentProfile.save dbC6 studentC10).rooms = dbC6.rooms :=
  ⟨(save_room_frame dbC6 studentC10 (by decide)).1,
   (save_room_frame dbC6 studentC10 (by decide)).2.1 (Or.inr (by decide))⟩

end Hostel
